import Mathlib

/-!
# Verification of the build-tool pipeline engine

Shallow embedding of the sources of the `build-tool` repository:

* `src/scm/perforce.py` — `PerforceSCM.checkout`, `PerforceSCM.upload`,
  `PerforceSCM.cleanup`, `PerforceSCM._in_client`.  The depot boundary
  (`run_sync`, `run_reconcile`, `run_submit`, `run_logout`, `disconnect`) is
  modelled as structured outcomes supplied by oracles, and every issued RPC is
  recorded in a trace.  `run_submit -d msg` submits the default changelist,
  i.e. exactly the files previously opened by the non-dry `run_reconcile`
  calls; the connection state therefore carries the list of opened files.
* `src/scm/scm.py` — the `SCM` facade (`SCM.upload` forwards no arguments,
  `SCM.checkout` forwards the revision).
* `src/action/action.py` — `SCMCheckoutAction`, `SCMUploadAction`,
  `Action.__init__` kind dispatch.
* `src/engine.py` — `Build.run` sequential execution.
* `src/config/config.py` — `Config._read_secret_from_vault` secret-reference
  parsing; Python strings are modelled as `List Char` and the Python
  method `str.split(sep)` as `pySplit`.

Python exceptions are modelled by the `PyErr` type; a function that can raise
returns its normal result together with an `Option PyErr` (`none` = no
exception), so that side effects (issued RPCs, directory changes) performed
before the exception stay observable.
-/

namespace BuildTool

/-- Structured outcome of the dry-run sync probe (`p4 sync -n`), as classified
by `PerforceSCM.checkout` lines 121–128: the `File(s) up-to-date.` sentinel,
a normal success (work to do), or any other depot error. -/
inductive SyncOutcome
  | upToDate
  | needsAction
  | err (detail : String)
deriving DecidableEq, Repr

/-- Structured outcome of the dry-run reconcile probe (`p4 reconcile -n`), as
classified by `PerforceSCM.upload` lines 170–181: the
`no file(s) to reconcile` sentinel, a normal success (file modified), or any
other depot error. -/
inductive RecOutcome
  | nothingToReconcile
  | reconciled
  | err (detail : String)
deriving DecidableEq, Repr

/-- Python exceptions surfaced by the embedded code. -/
inductive PyErr
  | p4 (detail : String)
  | valueError (msg : String)
  | keyError (key : String)
  | attributeError (attr : String)
deriving DecidableEq, Repr

/-- One RPC issued against the depot, recorded in order of issue. -/
inductive RPC
  | syncDry (force : Bool) (revision : Option String)
  | syncReal (force : Bool) (revision : Option String)
  | reconcileDry (file : String)
  | reconcileReal (file : String)
  | submit (message : Option String) (fileset : List String)
  | clean
  | logout
  | disconnect
deriving DecidableEq, Repr

/-- The SCM configuration fields read by `PerforceSCM` (lines 46–55). -/
structure ScmConfig where
  depot_name : String
  stream_name : String
  client_root : String
  sync_force : Bool
  sync_clean : Bool
  server_trust : Bool
deriving DecidableEq, Repr

namespace PerforceSCM

/-- `PerforceSCM.checkout` (perforce.py lines 105–136).  `probe` is the
answer of the depot to the dry-run probe.  Returns the trace of issued sync RPCs
and the raised exception, if any.  The `-f` flag and the `@revision`
qualifier of the `args` list of the source are recorded as fields of the RPC
constructors.  The final `if self.sync_clean: pass` block is kept as an
`if` with an empty body. -/
def checkout (cfg : ScmConfig) (revision : Option String) (probe : SyncOutcome) :
    List RPC × Option PyErr :=
  let dry := [RPC.syncDry cfg.sync_force revision]
  let classified : Except PyErr Bool :=
    match probe with
    | .upToDate => .ok true
    | .needsAction => .ok false
    | .err d => .error (.p4 d)
  match classified with
  | .error e => (dry, some e)
  | .ok in_sync =>
    let trace := if !in_sync || cfg.sync_force then
        dry ++ [RPC.syncReal cfg.sync_force revision]
      else dry
    let trace := if cfg.sync_clean then trace else trace
    (trace, none)

/-- `PerforceSCM.cleanup` (perforce.py lines 138–140): `run_logout` then
`disconnect`, with no exception handling.  `logoutRes` / `disconnectRes` are
the outcomes of the two calls (`none` = success).  A logout exception
propagates at once, so `disconnect` is not even attempted. -/
def cleanup (logoutRes disconnectRes : Option PyErr) : List RPC × Option PyErr :=
  match logoutRes with
  | some e => ([RPC.logout], some e)
  | none =>
    match disconnectRes with
    | some e => ([RPC.logout, RPC.disconnect], some e)
    | none => ([RPC.logout, RPC.disconnect], none)

/-- Process state seen by `PerforceSCM._in_client`: the current working
directory and whether the connection is established. -/
structure FsState where
  cwd : String
  connected : Bool
deriving DecidableEq, Repr

/-- `PerforceSCM._in_client` (perforce.py lines 77–91): remember `os.getcwd()`,
connect if not connected (which may raise), `os.chdir(client_root)`, run the
body, and in the `finally` block `os.chdir(previous_dir)` whether or not an
exception is in flight.  `connectRes` is the outcome of `self._connect()`;
the body is an arbitrary state transformer that may raise. -/
def inClient (client_root : String) (connectRes : Option PyErr)
    (body : FsState → FsState × Option PyErr) (s : FsState) :
    FsState × Option PyErr :=
  let previous_dir := s.cwd
  let afterTry :=
    if !s.connected then
      match connectRes with
      | some e => (s, some e)
      | none =>
        let s1 : FsState := { s with connected := true }
        let s2 : FsState := { s1 with cwd := client_root }
        body s2
    else
      let s2 : FsState := { s with cwd := client_root }
      body s2
  ({ afterTry.1 with cwd := previous_dir }, afterTry.2)

/-- Mutable state of the `upload` scan: the `has_changes` flag, the list of
files opened in the default changelist by the non-dry `run_reconcile` calls
(the fileset a later `run_submit -d` will submit), and the RPC trace. -/
structure UploadState where
  has_changes : Bool
  opened : List String
  trace : List RPC
deriving DecidableEq, Repr

/-- Inner loop of `PerforceSCM.upload` (perforce.py lines 169–181) over the
files one glob pattern expanded to.  `abspath` models `os.path.abspath`;
`probe file` is the answer of the depot to `run_reconcile -n` on that file.  On
the sentinel the file is skipped; on any other depot error the exception
propagates; otherwise the real `run_reconcile` opens the file (modelled as
succeeding, mirroring the dry probe) and `has_changes` is set. -/
def reconcileLoop (abspath : String → String) (probe : String → RecOutcome)
    (files : List String) (st : UploadState) : UploadState × Option PyErr :=
  match files with
  | [] => (st, none)
  | file :: rest =>
    let st1 : UploadState :=
      { st with trace := st.trace ++ [RPC.reconcileDry (abspath file)] }
    match probe file with
    | .nothingToReconcile => reconcileLoop abspath probe rest st1
    | .err d => (st1, some (.p4 d))
    | .reconciled =>
      let st2 : UploadState :=
        { st1 with
            has_changes := true
            opened := st1.opened ++ [abspath file]
            trace := st1.trace ++ [RPC.reconcileReal (abspath file)] }
      reconcileLoop abspath probe rest st2

/-- Outer loop of `PerforceSCM.upload` (perforce.py lines 163–181) over the
candidate path patterns.  `globf` models `glob.glob`; a pattern expanding to
no file is a logged warning and the loop continues (processing an empty file
list has exactly that effect). -/
def patternLoop (abspath : String → String) (globf : String → List String)
    (probe : String → RecOutcome) (paths : List String) (st : UploadState) :
    UploadState × Option PyErr :=
  match paths with
  | [] => (st, none)
  | file_path :: rest =>
    match reconcileLoop abspath probe (globf file_path) st with
    | (st1, none) => patternLoop abspath globf probe rest st1
    | r => r

/-- `PerforceSCM.upload` (perforce.py lines 148–187).  `paths = paths or []`;
after the scan, if any file was marked dirty a single `run_submit -d message`
is issued, submitting exactly the opened fileset; otherwise
`Nothing to submit` is logged and no submit RPC occurs. -/
def upload (abspath : String → String) (globf : String → List String)
    (probe : String → RecOutcome) (paths : Option (List String))
    (message : Option String) : UploadState × Option PyErr :=
  let paths := paths.getD []
  match patternLoop abspath globf probe paths ⟨false, [], []⟩ with
  | (st, none) =>
    if st.has_changes then
      ({ st with trace := st.trace ++ [RPC.submit message st.opened] }, none)
    else (st, none)
  | r => r

end PerforceSCM

namespace SCM

/-- `SCM.checkout` (scm.py lines 202–203) forwards the revision to
`PerforceSCM.checkout`. -/
def checkout (cfg : ScmConfig) (revision : Option String) (probe : SyncOutcome) :
    List RPC × Option PyErr :=
  PerforceSCM.checkout cfg revision probe

/-- `SCM.upload` (scm.py lines 208–209): `self.scm.upload()` — it passes
neither paths nor a message, so `PerforceSCM.upload` runs with
`paths=None, message=None`. -/
def upload (abspath : String → String) (globf : String → List String)
    (probe : String → RecOutcome) : PerforceSCM.UploadState × Option PyErr :=
  PerforceSCM.upload abspath globf probe none none

/-- `SCM.cleanup` (scm.py lines 205–206). -/
def cleanup (logoutRes disconnectRes : Option PyErr) : List RPC × Option PyErr :=
  PerforceSCM.cleanup logoutRes disconnectRes

end SCM

/-- The payload table of one action entry in pipeline.toml, with absent keys
as `none` / `[]` (external interface: `checkout`{scm_name, revision?},
`command`{commands}, `upload`{scm_name, message?}). -/
structure ActionPayload where
  scm_name : Option String
  revision : Option String
  message : Option String
  commands : List String
deriving DecidableEq, Repr

/-- `BaseSCMAction.__init__` (action.py lines 20–29): `scm_name` missing or
falsy (empty) raises `ValueError`; an unknown scm name raises `KeyError`.
`scms` is the set of scm names of the pipeline (`build.scms`). -/
def BaseSCMAction.init (scms : List String) (action_config : ActionPayload) :
    Option PyErr :=
  match action_config.scm_name with
  | none => some (.valueError "scm_name is required for SCM Action")
  | some n =>
    if n = "" then some (.valueError "scm_name is required for SCM Action")
    else if n ∈ scms then none
    else some (.keyError n)

/-- `SCMCheckoutAction` state: the stored revision (action.py line 38). -/
structure SCMCheckoutAction where
  revision : Option String
deriving DecidableEq, Repr

/-- `SCMCheckoutAction.__init__` (action.py lines 36–38): the revision comes
only from the `revision` parameter of the constructor; nothing is read from
`action_config` beyond what `BaseSCMAction.__init__` reads. -/
def SCMCheckoutAction.init (scms : List String) (action_config : ActionPayload)
    (revision : Option String) : Except PyErr SCMCheckoutAction :=
  match BaseSCMAction.init scms action_config with
  | some e => .error e
  | none => .ok { revision := revision }

/-- `SCMCheckoutAction.execute` (action.py lines 40–42): `scm.checkout` with
the stored revision, then `super().execute()` which is `scm.cleanup()`.
There is no try/finally: if checkout raises, cleanup never runs; if cleanup
raises, the exception propagates to the caller. -/
def SCMCheckoutAction.execute (a : SCMCheckoutAction) (cfg : ScmConfig)
    (probe : SyncOutcome) (logoutRes disconnectRes : Option PyErr) :
    List RPC × Option PyErr :=
  match PerforceSCM.checkout cfg a.revision probe with
  | (tr, some e) => (tr, some e)
  | (tr, none) =>
    let c := PerforceSCM.cleanup logoutRes disconnectRes
    (tr ++ c.1, c.2)

/-- `SCMUploadAction._DEFAULT_SUBMIT_MESSAGE` (action.py line 46). -/
def defaultSubmitMessage : String := "Auto-generated commit"

/-- `SCMUploadAction.__init__` line 50:
`action_config.get(message) or _DEFAULT_SUBMIT_MESSAGE` — an absent or
empty (falsy) message becomes the placeholder. -/
def SCMUploadAction.message (action_config : ActionPayload) : String :=
  match action_config.message with
  | none => defaultSubmitMessage
  | some m => if m = "" then defaultSubmitMessage else m

/-- `SCMUploadAction.execute` (action.py lines 52–54): `self.scm.upload()`
(through the `SCM` facade, which forwards neither paths nor message), then
`super().execute()` which is `scm.cleanup()`. -/
def SCMUploadAction.execute (abspath : String → String)
    (globf : String → List String) (probe : String → RecOutcome)
    (logoutRes disconnectRes : Option PyErr) : List RPC × Option PyErr :=
  match SCM.upload abspath globf probe with
  | (st, some e) => (st.trace, some e)
  | (st, none) =>
    let c := PerforceSCM.cleanup logoutRes disconnectRes
    (st.trace ++ c.1, c.2)

/-- The concrete sub-action stored in `self.action` by `Action.__init__`. -/
inductive Handler
  | checkout (a : SCMCheckoutAction)
  | command (commands : List String)
  | upload (message : String)
deriving DecidableEq, Repr

/-- The `for key, value in action_config.items()` loop of `Action.__init__`
(action.py lines 74–83): the first recognized key constructs the sub-action
and breaks; constructor exceptions propagate; unrecognized keys are passed
over.  Returns `none` when no key matched, i.e. `self.action` was never
assigned.  Note line 76 constructs `SCMCheckoutAction(build, value)` without
a `revision` argument, so the stored revision is `None`. -/
def Action.initLoop (scms : List String) :
    List (String × ActionPayload) → Option (Except PyErr Handler)
  | [] => none
  | (key, value) :: rest =>
    if key = "checkout" then
      some ((SCMCheckoutAction.init scms value none).map Handler.checkout)
    else if key = "command" then
      some (.ok (Handler.command value.commands))
    else if key = "upload" then
      some (match BaseSCMAction.init scms value with
        | some e => .error e
        | none => .ok (Handler.upload (SCMUploadAction.message value)))
    else Action.initLoop scms rest

/-- `Action.__init__` (action.py lines 70–88).  When no key of the action
table is a recognized kind, the guard `if not self.action:` on line 85 reads
the attribute `action`, which was never assigned, so Python raises
`AttributeError` there — the `raise ValueError(Invalid or unknown action
type ...)` on line 86 is unreachable. -/
def Action.init (scms : List String) (_action_name : String)
    (action_config : List (String × ActionPayload)) : Except PyErr Handler :=
  match Action.initLoop scms action_config with
  | some r => r
  | none => .error (.attributeError "action")

/-- `Build.run` (engine.py lines 122–124): execute the actions in order; the
first exception propagates out of the loop and aborts the rest.  Each action
is given by its name and the outcome of its `execute()`; the result is the
list of names of actions whose `execute()` was invoked, with the propagated
exception, if any. -/
def Build.run (actions : List (String × Option PyErr)) :
    List String × Option PyErr :=
  match actions with
  | [] => ([], none)
  | (nm, res) :: rest =>
    match res with
    | some e => ([nm], some e)
    | none =>
      let r := Build.run rest
      (nm :: r.1, r.2)

/-- Python `str.split(sep)` for a one-character separator: split at every
occurrence, keeping empty components (so splitting the empty string yields
one empty component). -/
def pySplit (sep : Char) : List Char → List (List Char)
  | [] => [[]]
  | c :: rest =>
    if c = sep then [] :: pySplit sep rest
    else
      match pySplit sep rest with
      | [] => [[c]]
      | t :: ts => (c :: t) :: ts

/-- Python `str.strip()` with no argument: drop leading and trailing
whitespace. -/
def pyStrip (s : List Char) : List Char :=
  ((s.dropWhile Char.isWhitespace).reverse.dropWhile Char.isWhitespace).reverse

/-- The message of the two format `ValueError`s of
`Config._read_secret_from_vault` (config.py lines 263–264 and 271–272). -/
def invalidSecretFormatMsg : String :=
  "Invalid secret format, secret should be in format: vault://<secret_engine>/<secret_path>#<secret_key>"

/-- Lines 258–272 of config.py: split the stripped secret address on the
first `#` boundary (`parts[0]` / `parts[1]`) into the full secret path and
the key, rejecting a missing or empty key; then split the full path on `/`
into the mount (`parts[0]`) and the joined remainder, rejecting an empty
mount.  A single-component path leaves the path part `None`. -/
def parseSecretAddress (secret_address : List Char) :
    Except PyErr (List Char × Option (List Char) × List Char) :=
  let secret_address_parts := pySplit '#' secret_address
  let full_secret_path := secret_address_parts.headD []
  let secret_key : Option (List Char) :=
    match secret_address_parts with
    | _ :: k :: _ => some k
    | _ => none
  match secret_key with
  | none => .error (.valueError invalidSecretFormatMsg)
  | some k =>
    if k = [] then .error (.valueError invalidSecretFormatMsg)
    else
      let secret_path_parts := pySplit '/' full_secret_path
      let secret_mount := secret_path_parts.headD []
      let secret_path : Option (List Char) :=
        match secret_path_parts with
        | _ :: p :: ps => some (List.intercalate ['/'] (p :: ps))
        | _ => none
      if secret_mount = [] then .error (.valueError invalidSecretFormatMsg)
      else .ok (secret_mount, secret_path, k)

/-- `Config._read_secret_from_vault` (config.py lines 244–285): check the
vault credentials (absent or empty ⇒ `ValueError` about the missing field),
parse the secret address, and only then perform the one secret-store lookup.
`store mount path key` models
`client.secrets.kv.v2.read_secret_version(...)` followed by the key lookup;
any failure inside the `try` block is re-raised as a `ValueError`
(`Error retrieving secret: ...`). -/
def readSecretFromVault
    (store : List Char → Option (List Char) → List Char → Option (List Char))
    (vault_addr vault_token : Option (List Char)) (secret_address : List Char) :
    Except PyErr (List Char) :=
  match vault_addr with
  | none => .error (.valueError "main.vault_address should be specified when using secrets")
  | some a =>
    if a = [] then
      .error (.valueError "main.vault_address should be specified when using secrets")
    else
      match vault_token with
      | none => .error (.valueError "main.vault_token should be specified when using secrets")
      | some t =>
        if t = [] then
          .error (.valueError "main.vault_token should be specified when using secrets")
        else
          match parseSecretAddress secret_address with
          | .error e => .error e
          | .ok (secret_mount, secret_path, secret_key) =>
            match store secret_mount secret_path secret_key with
            | none => .error (.valueError "Error retrieving secret")
            | some v => .ok v

/-- `Config.retrieve_secrets_from_vault` applied to one string value
(config.py lines 236–240): a value starting with `vault://` is replaced by
the resolved secret (the address is the value with the prefix removed and
stripped of whitespace); every other value is returned unchanged. -/
def resolveValue
    (store : List Char → Option (List Char) → List Char → Option (List Char))
    (vault_addr vault_token : Option (List Char)) (value : List Char) :
    Except PyErr (List Char) :=
  if value.take 8 = "vault://".toList then
    readSecretFromVault store vault_addr vault_token (pyStrip (value.drop 8))
  else .ok value

/-- The files the candidate patterns of an upload expand to, in scan order
(the concatenation of `glob.glob(pattern)` over the patterns). -/
def expandedFiles (globf : String → List String) (paths : List String) :
    List String :=
  paths.flatMap globf

/-- The expanded files whose dry-run reconcile does not answer with the
`no file(s) to reconcile` sentinel, in scan order: the files `upload`
verifies as modified. -/
def modifiedFiles (globf : String → List String) (probe : String → RecOutcome)
    (paths : List String) : List String :=
  (expandedFiles globf paths).filter fun f =>
    decide (probe f ≠ RecOutcome.nothingToReconcile)

/-- Whether an RPC is a submit. -/
def RPC.isSubmit : RPC → Bool
  | .submit _ _ => true
  | _ => false

/-- The submit RPCs of a trace, in order. -/
def submits (trace : List RPC) : List RPC := trace.filter RPC.isSubmit

/-- Helper: `submits` distributes over trace concatenation. -/
lemma submits_append (a b : List RPC) :
    submits (a ++ b) = submits a ++ submits b := by
  simp [submits, List.filter_append]

/-- Helper: the reconcile scan of the files of one pattern, when no dry probe
errors, raises nothing, opens exactly the non-sentinel files (in order,
through `abspath`), ends dirty iff it started dirty or some file was
modified, and issues no submit RPC. -/
lemma reconcileLoop_spec (abspath : String → String)
    (probe : String → RecOutcome) (files : List String)
    (st : PerforceSCM.UploadState)
    (h : ∀ f ∈ files, ∀ d, probe f ≠ RecOutcome.err d) :
    (PerforceSCM.reconcileLoop abspath probe files st).2 = none
    ∧ (PerforceSCM.reconcileLoop abspath probe files st).1.opened
        = st.opened ++ ((files.filter fun f =>
            decide (probe f ≠ RecOutcome.nothingToReconcile)).map abspath)
    ∧ (PerforceSCM.reconcileLoop abspath probe files st).1.has_changes
        = (st.has_changes || !(files.filter fun f =>
            decide (probe f ≠ RecOutcome.nothingToReconcile)).isEmpty)
    ∧ submits (PerforceSCM.reconcileLoop abspath probe files st).1.trace
        = submits st.trace := by
  induction files generalizing st with
  | nil => simp [PerforceSCM.reconcileLoop]
  | cons f rest ih =>
    have hrest : ∀ g ∈ rest, ∀ d, probe g ≠ RecOutcome.err d :=
      fun g hg => h g (List.mem_cons_of_mem _ hg)
    cases hpf : probe f with
    | err d => exact absurd hpf (h f (List.mem_cons_self _ _) d)
    | nothingToReconcile =>
      obtain ⟨h1, h2, h3, h4⟩ :=
        ih { st with trace := st.trace ++ [RPC.reconcileDry (abspath f)] } hrest
      simp only [PerforceSCM.reconcileLoop, hpf]
      refine ⟨h1, ?_, ?_, ?_⟩
      · rw [h2]; simp [List.filter_cons, hpf]
      · rw [h3]; simp [List.filter_cons, hpf]
      · rw [h4]; simp [submits_append, submits, RPC.isSubmit]
    | reconciled =>
      obtain ⟨h1, h2, h3, h4⟩ :=
        ih { st with
              has_changes := true
              opened := st.opened ++ [abspath f]
              trace := (st.trace ++ [RPC.reconcileDry (abspath f)])
                ++ [RPC.reconcileReal (abspath f)] } hrest
      simp only [PerforceSCM.reconcileLoop, hpf]
      refine ⟨h1, ?_, ?_, ?_⟩
      · rw [h2]; simp [List.filter_cons, hpf]
      · rw [h3]; simp [List.filter_cons, hpf]
      · rw [h4]; simp [submits_append, submits, RPC.isSubmit]

/-- Helper: the scan over all candidate patterns, when no dry probe errors,
raises nothing, opens exactly the modified expanded files, ends dirty iff
some expanded file was modified, and issues no submit RPC. -/
lemma patternLoop_spec (abspath : String → String)
    (globf : String → List String) (probe : String → RecOutcome)
    (paths : List String) (st : PerforceSCM.UploadState)
    (h : ∀ f ∈ expandedFiles globf paths, ∀ d, probe f ≠ RecOutcome.err d) :
    (PerforceSCM.patternLoop abspath globf probe paths st).2 = none
    ∧ (PerforceSCM.patternLoop abspath globf probe paths st).1.opened
        = st.opened ++ (modifiedFiles globf probe paths).map abspath
    ∧ (PerforceSCM.patternLoop abspath globf probe paths st).1.has_changes
        = (st.has_changes || !(modifiedFiles globf probe paths).isEmpty)
    ∧ submits (PerforceSCM.patternLoop abspath globf probe paths st).1.trace
        = submits st.trace := by
  induction paths generalizing st with
  | nil => simp [PerforceSCM.patternLoop, modifiedFiles, expandedFiles]
  | cons p rest ih =>
    have hsplit : expandedFiles globf (p :: rest)
        = globf p ++ expandedFiles globf rest := by
      simp [expandedFiles]
    have hp : ∀ f ∈ globf p, ∀ d, probe f ≠ RecOutcome.err d :=
      fun f hf d => h f (by rw [hsplit]; exact List.mem_append_left _ hf) d
    have hrest : ∀ f ∈ expandedFiles globf rest, ∀ d,
        probe f ≠ RecOutcome.err d :=
      fun f hf d => h f (by rw [hsplit]; exact List.mem_append_right _ hf) d
    obtain ⟨r1, r2, r3, r4⟩ := reconcileLoop_spec abspath probe (globf p) st hp
    rcases hrec : PerforceSCM.reconcileLoop abspath probe (globf p) st
      with ⟨st1, res⟩
    rw [hrec] at r1 r2 r3 r4
    simp only at r1
    subst r1
    obtain ⟨q1, q2, q3, q4⟩ := ih st1 hrest
    simp only [PerforceSCM.patternLoop, hrec]
    have hmod : modifiedFiles globf probe (p :: rest)
        = ((globf p).filter fun f =>
            decide (probe f ≠ RecOutcome.nothingToReconcile))
          ++ modifiedFiles globf probe rest := by
      simp [modifiedFiles, expandedFiles, List.filter_append]
    refine ⟨q1, ?_, ?_, ?_⟩
    · rw [q2, r2, hmod]
      simp [List.append_assoc]
    · rw [q3, r3, hmod]
      rw [Bool.or_assoc]
      rcases List.filter (fun f =>
          decide (probe f ≠ RecOutcome.nothingToReconcile)) (globf p)
        with _ | ⟨x, xs⟩ <;> cases st.has_changes <;> simp
    · rw [q4, r4]

/-- C1: for an upload over candidate patterns whose expanded files all probe
without a depot error, the operation succeeds, and the submit RPC is issued
exactly once with a fileset of exactly the files verified as modified (those
whose dry probe did not answer the sentinel) — or not at all when no file is
modified. -/
theorem upload_submits_exactly_modified (abspath : String → String)
    (globf : String → List String) (probe : String → RecOutcome)
    (paths : List String) (message : Option String)
    (h : ∀ f ∈ expandedFiles globf paths, ∀ d, probe f ≠ RecOutcome.err d) :
    (PerforceSCM.upload abspath globf probe (some paths) message).2 = none
    ∧ submits
        (PerforceSCM.upload abspath globf probe (some paths) message).1.trace
      = (if modifiedFiles globf probe paths = [] then []
         else [RPC.submit message
                ((modifiedFiles globf probe paths).map abspath)]) := by
  obtain ⟨r1, r2, r3, r4⟩ :=
    patternLoop_spec abspath globf probe paths ⟨false, [], []⟩ h
  rcases hrec : PerforceSCM.patternLoop abspath globf probe paths
      ⟨false, [], []⟩ with ⟨st, res⟩
  rw [hrec] at r1 r2 r3 r4
  simp only at r1
  subst r1
  simp only at r2 r3 r4
  simp only [PerforceSCM.upload, Option.getD_some, hrec]
  cases hm : modifiedFiles globf probe paths with
  | nil =>
    have r3f : st.has_changes = false := by rw [hm] at r3; simpa using r3
    refine ⟨by simp [r3f], ?_⟩
    simp only [r3f]
    simp
    exact r4.trans rfl
  | cons m ms =>
    have r3t : st.has_changes = true := by rw [hm] at r3; simpa using r3
    have r2m : st.opened = List.map abspath (m :: ms) := by
      rw [hm] at r2; simpa using r2
    refine ⟨by simp [r3t], ?_⟩
    simp only [r3t]
    simp
    rw [submits_append, r4, r2m]
    rfl

/-- Witness for C1 (Scenario B of the spec): two candidate patterns expanding
to three files of which two are modified — one submit RPC with exactly those
two files. -/
theorem upload_submits_exactly_modified_witness :
    (∀ f ∈ expandedFiles
        (fun p => if p = "docs/*.txt" then ["docs/a.txt", "docs/b.txt"]
          else if p = "bin/tool" then ["bin/tool"] else [])
        ["docs/*.txt", "bin/tool"], ∀ d,
      (fun f => if f = "docs/b.txt" then RecOutcome.nothingToReconcile
        else RecOutcome.reconciled) f ≠ RecOutcome.err d)
    ∧ submits (PerforceSCM.upload (fun f => "/ws/" ++ f)
        (fun p => if p = "docs/*.txt" then ["docs/a.txt", "docs/b.txt"]
          else if p = "bin/tool" then ["bin/tool"] else [])
        (fun f => if f = "docs/b.txt" then RecOutcome.nothingToReconcile
          else RecOutcome.reconciled)
        (some ["docs/*.txt", "bin/tool"]) (some "msg")).1.trace
      = [RPC.submit (some "msg") ["/ws/docs/a.txt", "/ws/bin/tool"]] := by
  have hnoerr : ∀ f ∈ expandedFiles
      (fun p => if p = "docs/*.txt" then ["docs/a.txt", "docs/b.txt"]
        else if p = "bin/tool" then ["bin/tool"] else [])
      ["docs/*.txt", "bin/tool"], ∀ d,
      (fun f => if f = "docs/b.txt" then RecOutcome.nothingToReconcile
        else RecOutcome.reconciled) f ≠ RecOutcome.err d := by
    intro f _ d
    by_cases hf : f = "docs/b.txt" <;> simp [hf]
  have h := upload_submits_exactly_modified (fun f => "/ws/" ++ f)
    (fun p => if p = "docs/*.txt" then ["docs/a.txt", "docs/b.txt"]
      else if p = "bin/tool" then ["bin/tool"] else [])
    (fun f => if f = "docs/b.txt" then RecOutcome.nothingToReconcile
      else RecOutcome.reconciled)
    ["docs/*.txt", "bin/tool"] (some "msg") hnoerr
  refine ⟨hnoerr, ?_⟩
  rw [h.2]
  decide

/-- C10: every operation run inside `_in_client` leaves the current working
directory as it found it, on normal completion as well as when the body (or
the connection step) raises. -/
theorem inClient_restores_cwd (client_root : String) (connectRes : Option PyErr)
    (body : PerforceSCM.FsState → PerforceSCM.FsState × Option PyErr)
    (s : PerforceSCM.FsState) :
    ((PerforceSCM.inClient client_root connectRes body s).1).cwd = s.cwd := rfl

/-- C9: the `sync_clean` flag has no effect on `checkout` — the result is the
same for any value of the flag — and no cleanup-of-stale-files RPC is ever
issued against the depot. -/
theorem checkout_sync_clean_no_effect (cfg : ScmConfig) (b : Bool)
    (revision : Option String) (probe : SyncOutcome) :
    PerforceSCM.checkout { cfg with sync_clean := b } revision probe
        = PerforceSCM.checkout { cfg with sync_clean := false } revision probe
    ∧ RPC.clean ∉ (PerforceSCM.checkout cfg revision probe).1 := by
  constructor
  · cases probe <;> simp [PerforceSCM.checkout]
  · cases probe <;> simp [PerforceSCM.checkout] <;> split <;> simp

/-- C2: probing an already-synced workspace (`File(s) up-to-date.` sentinel)
with `sync_force` unset issues exactly the one dry probe RPC and succeeds;
on the up-to-date sentinel the real sync fires exactly when `sync_force` is
set, and on `NeedsSync` the real sync always fires. -/
theorem checkout_already_synced_single_rpc (cfg : ScmConfig)
    (revision : Option String) :
    (PerforceSCM.checkout { cfg with sync_force := false } revision .upToDate).1
        = [RPC.syncDry false revision]
    ∧ (PerforceSCM.checkout { cfg with sync_force := false } revision .upToDate).2
        = none
    ∧ (∀ force : Bool,
        (RPC.syncReal force revision ∈
            (PerforceSCM.checkout { cfg with sync_force := force } revision
              .upToDate).1)
          ↔ force = true)
    ∧ (∀ force : Bool,
        RPC.syncReal force revision ∈
          (PerforceSCM.checkout { cfg with sync_force := force } revision
            .needsAction).1) := by
  refine ⟨?_, ?_, ?_, ?_⟩
  · simp [PerforceSCM.checkout]
  · simp [PerforceSCM.checkout]
  · intro force; cases force <;> simp [PerforceSCM.checkout]
  · intro force; cases force <;> simp [PerforceSCM.checkout]

/-- C6: an action table with no recognized kind (or no kind key at all) makes
handler construction fail — but with `AttributeError` (reading the unset
`self.action` on line 85), not with the configuration `ValueError` of line
86, which is unreachable. -/
theorem action_init_unknown_kind_attribute_error :
    Action.init ["main_scm"] "deploy"
        [("build_step", ⟨none, none, none, ["make"]⟩)]
      = .error (.attributeError "action")
    ∧ Action.init ["main_scm"] "deploy" [] = .error (.attributeError "action")
    ∧ ∀ msg : String,
        Action.init ["main_scm"] "deploy"
            [("build_step", ⟨none, none, none, ["make"]⟩)]
          ≠ .error (.valueError msg) := by
  refine ⟨rfl, rfl, ?_⟩
  intro msg h
  have hx : Action.init ["main_scm"] "deploy"
      [("build_step", ⟨none, none, none, ["make"]⟩)]
      = .error (.attributeError "action") := rfl
  rw [hx] at h
  simp at h

/-- C7: in a sequential pipeline, if every action before position `k`
succeeds and the action at position `k` raises, then exactly the actions up
to and including `k` are executed — actions `k+1..N` never run — and the
error propagates. -/
theorem run_fail_fast (actions : List (String × Option PyErr)) (k : Nat)
    (e : PyErr)
    (hk : (actions.get? k).map Prod.snd = some (some e))
    (hprev : ∀ j, j < k → (actions.get? j).map Prod.snd = some none) :
    (Build.run actions).1 = (actions.take (k + 1)).map Prod.fst
    ∧ (Build.run actions).2 = some e := by
  induction actions generalizing k with
  | nil => simp at hk
  | cons hd tl ih =>
    obtain ⟨nm, res⟩ := hd
    cases k with
    | zero =>
      simp at hk
      subst hk
      simp [Build.run]
    | succ k =>
      have h0 := hprev 0 (Nat.succ_pos k)
      simp at h0
      subst h0
      have hrec := ih k (by simpa using hk)
        (fun j hj => by simpa using hprev (j + 1) (Nat.succ_lt_succ hj))
      simp [Build.run, hrec.1, hrec.2]

/-- Helper: the trace of `checkout` consists of sync RPCs only, so it never
contains a logout. -/
lemma checkout_no_logout (cfg : ScmConfig) (revision : Option String)
    (probe : SyncOutcome) :
    RPC.logout ∉ (PerforceSCM.checkout cfg revision probe).1 := by
  cases probe <;> simp [PerforceSCM.checkout] <;> split <;> simp

/-- C3: the checkout dispatcher drops the configured revision.  Constructing
the action from a table whose `checkout` payload carries revision `1234`
stores revision `None` (line 76 passes no revision), so executing it issues
sync RPCs targeting the latest revision; had the revision been forwarded,
`PerforceSCM.checkout` would qualify the sync with it. -/
theorem checkout_action_drops_config_revision :
    Action.init ["main_scm"] "checkout_step"
        [("checkout", ⟨some "main_scm", some "1234", none, []⟩)]
      = .ok (Handler.checkout ⟨none⟩)
    ∧ (∀ cfg : ScmConfig, ∀ probe lres dres,
        (SCMCheckoutAction.execute ⟨none⟩ cfg probe lres dres).1.head?
          = some (RPC.syncDry cfg.sync_force none))
    ∧ (∀ cfg : ScmConfig, ∀ probe,
        (PerforceSCM.checkout cfg (some "1234") probe).1.head?
          = some (RPC.syncDry cfg.sync_force (some "1234"))) := by
  refine ⟨rfl, ?_, ?_⟩
  · intro cfg probe lres dres
    obtain ⟨dn, sn, cr, sf, sc, stt⟩ := cfg
    cases sf <;> cases sc <;> cases probe <;> cases lres <;> cases dres <;> rfl
  · intro cfg probe
    obtain ⟨dn, sn, cr, sf, sc, stt⟩ := cfg
    cases sf <;> cases sc <;> cases probe <;> rfl

/-- C4: through the action wiring the placeholder commit message never
reaches a submission.  `SCM.upload` calls `PerforceSCM.upload` with
`paths=None, message=None`, which issues no RPC at all (empty candidate
list), so an upload action never issues a submit RPC — even though the
constructor does store the placeholder for an omitted message. -/
theorem upload_action_message_never_submitted (abspath : String → String)
    (globf : String → List String) (probe : String → RecOutcome)
    (lres dres : Option PyErr) :
    SCM.upload abspath globf probe = (⟨false, [], []⟩, none)
    ∧ (∀ m fs,
        RPC.submit m fs ∉
          (SCMUploadAction.execute abspath globf probe lres dres).1)
    ∧ SCMUploadAction.message ⟨some "main_scm", none, none, []⟩
        = defaultSubmitMessage := by
  refine ⟨rfl, ?_, rfl⟩
  intro m fs
  cases lres <;> cases dres <;>
    simp [SCMUploadAction.execute, SCM.upload, PerforceSCM.upload,
      PerforceSCM.patternLoop, PerforceSCM.cleanup]

/-- Counterexample to C5: a logout failure during `cleanup` is not caught —
it is returned (raised) to the caller. -/
theorem cleanup_error_propagates_counterexample :
    (PerforceSCM.cleanup (some (PyErr.p4 "logout failed: socket closed"))
        none).2
      = some (PyErr.p4 "logout failed: socket closed") := rfl

/-- C5 (amended): cleanup-phase errors propagate to the caller — `cleanup`
raises the logout error if logout fails (skipping `disconnect`), else any
disconnect error.  A cleanup error still never replaces an in-flight failure
of the main work of the handler, because cleanup only runs after the main work
succeeded: when checkout raises, the handler returns that error and issues
no cleanup RPC at all. -/
theorem cleanup_error_behavior (lres dres : Option PyErr)
    (a : SCMCheckoutAction) (cfg : ScmConfig) (probe : SyncOutcome) (e : PyErr)
    (hfail : (PerforceSCM.checkout cfg a.revision probe).2 = some e) :
    (PerforceSCM.cleanup lres dres).2
        = (match lres with | some e2 => some e2 | none => dres)
    ∧ (∀ e2, lres = some e2 →
        (PerforceSCM.cleanup lres dres).1 = [RPC.logout])
    ∧ SCMCheckoutAction.execute a cfg probe lres dres
        = ((PerforceSCM.checkout cfg a.revision probe).1, some e)
    ∧ RPC.logout ∉ (SCMCheckoutAction.execute a cfg probe lres dres).1 := by
  rcases hp : PerforceSCM.checkout cfg a.revision probe with ⟨tr, res⟩
  rw [hp] at hfail
  simp only at hfail
  subst hfail
  refine ⟨?_, ?_, ?_, ?_⟩
  · cases lres <;> cases dres <;> rfl
  · intro e2 he2
    subst he2
    rfl
  · simp [SCMCheckoutAction.execute, hp]
  · have hnl := checkout_no_logout cfg a.revision probe
    rw [hp] at hnl
    simp [SCMCheckoutAction.execute, hp]
    exact hnl

/-- Witness for C5 (amended): with a failing probe the checkout raises, the
handler surfaces exactly that error, and no cleanup RPC is issued even
though the logout oracle would itself fail. -/
theorem cleanup_error_behavior_witness :
    (PerforceSCM.checkout ⟨"depot", "main", "/ws", false, true, true⟩
        (SCMCheckoutAction.revision ⟨none⟩) (.err "boom")).2
      = some (PyErr.p4 "boom")
    ∧ SCMCheckoutAction.execute ⟨none⟩
        ⟨"depot", "main", "/ws", false, true, true⟩ (.err "boom")
        (some (PyErr.p4 "network down")) none
      = ([RPC.syncDry false none], some (PyErr.p4 "boom")) := by
  have h := cleanup_error_behavior (some (PyErr.p4 "network down")) none ⟨none⟩
    ⟨"depot", "main", "/ws", false, true, true⟩ (.err "boom") (PyErr.p4 "boom")
    rfl
  exact ⟨rfl, h.2.2.1⟩

/-- C8: the secret reference `vault://kv/app/db#password` decomposes into
mount `kv`, path `app/db`, key `password` (and that decomposition is what
reaches the store), while a reference lacking the `#key` part or the mount
part fails with the format `ValueError` for every possible store — i.e.
before any secret-store lookup. -/
theorem secret_reference_parsing :
    parseSecretAddress "kv/app/db#password".toList
        = .ok ("kv".toList, some "app/db".toList, "password".toList)
    ∧ resolveValue
        (fun m p k =>
          if m = "kv".toList then
            if p = some "app/db".toList then
              if k = "password".toList then some "s3cret".toList else none
            else none
          else none)
        (some "http://vault:8200".toList) (some "tok".toList)
        "vault://kv/app/db#password".toList
      = .ok "s3cret".toList
    ∧ (∀ store, readSecretFromVault store (some "http://vault:8200".toList)
        (some "tok".toList) "kv/app/db".toList
          = .error (.valueError invalidSecretFormatMsg))
    ∧ (∀ store, readSecretFromVault store (some "http://vault:8200".toList)
        (some "tok".toList) "/app/db#password".toList
          = .error (.valueError invalidSecretFormatMsg)) := by
  exact ⟨rfl, rfl, fun store => rfl, fun store => rfl⟩

/-- Witness for C7: a three-action pipeline whose second action fails
executes exactly the first two actions and surfaces the failure. -/
theorem run_fail_fast_witness :
    (Build.run [("sync", none), ("build", some (PyErr.p4 "boom")),
        ("publish", none)]).1 = ["sync", "build"]
    ∧ (Build.run [("sync", none), ("build", some (PyErr.p4 "boom")),
        ("publish", none)]).2 = some (PyErr.p4 "boom") := by
  have h := run_fail_fast
    [("sync", none), ("build", some (PyErr.p4 "boom")), ("publish", none)] 1
    (PyErr.p4 "boom") (by decide)
    (by
      intro j hj
      have hj0 : j = 0 := by omega
      subst hj0
      decide)
  exact ⟨by rw [h.1]; decide, h.2⟩

end BuildTool
